import Mathlib

/-!
Shallow embedding of `src/led-controller.X/source/spi.c`, the SPI peripheral
driver of the led-cube-16x16x16-controller firmware.

Hardware registers are modelled as natural numbers (the C code manipulates
32-bit `unsigned int` registers; arithmetic that can wrap is taken modulo
`2 ^ 32` explicitly).  The per-channel register block, the per-channel
interrupt map and the channel descriptor (`struct spi_module`) are records.
Register-access side effects are additionally recorded as explicit event
traces so that ordering and counting properties of the emitted register
accesses can be stated.

The driver's headers (`spi.h`, `register.h`, `sys.h`, `dma.h`, `xc.h`) are
not part of the sources under verification; the constants and external
calls they provide are modelled from the spec where they are needed, each
with a doc comment saying so.
-/

/-- Modelled from the spec: `register.h` is not under src/.  `BIT(n)` is the
single-bit mask at bit position `n`, exactly as used by the source for the
interrupt masks and the status-flag mask. -/
def BIT (n : Nat) : Nat := 1 <<< n

/-- Modelled from the spec: `spi.h` is not under src/.  The spec describes the
control word as "a bitfield of control flags (transfer width mode,
master/slave role, on/off, etc.)".  The hardware "on" control bit.  The
concrete bit position is immaterial to every claim; the flags are modelled as
distinct single bits. -/
def SPI_ON : Nat := BIT 15

/-- Modelled from the spec: master-mode ("master/slave role") control flag of
the control word (`spi.h` is not under src/). -/
def SPI_MSTEN : Nat := BIT 5

/-- Modelled from the spec: 32-bit transfer-width mode flag of the control
word (`spi.h` is not under src/). -/
def SPI_MODE32 : Nat := BIT 11

/-- Modelled from the spec: 16-bit transfer-width mode flag of the control
word (`spi.h` is not under src/). -/
def SPI_MODE16 : Nat := BIT 10

/-- Transmit-buffer-full mask, `SPI_SPISTAT_SPITBF_MASK = BIT(1)` from the
source. -/
def SPI_SPISTAT_SPITBF_MASK : Nat := BIT 1

/-- `SPI_FIFO_DEPTH_MODE32` from the source. -/
def SPI_FIFO_DEPTH_MODE32 : Nat := 4

/-- `SPI_FIFO_DEPTH_MODE16` from the source. -/
def SPI_FIFO_DEPTH_MODE16 : Nat := 8

/-- `SPI_FIFO_DEPTH_MODE8` from the source. -/
def SPI_FIFO_DEPTH_MODE8 : Nat := 16

/-- `SPI_FIFO_SIZE_MODE32` from the source (in bytes). -/
def SPI_FIFO_SIZE_MODE32 : Nat := 4

/-- `SPI_FIFO_SIZE_MODE16` from the source (in bytes). -/
def SPI_FIFO_SIZE_MODE16 : Nat := 2

/-- `SPI_FIFO_SIZE_MODE8` from the source (in bytes). -/
def SPI_FIFO_SIZE_MODE8 : Nat := 1

/-- Modulus of C `unsigned int` arithmetic on the target (32-bit). -/
def UINT_MOD : Nat := 2 ^ 32

/-- `SPI_BRG(baudrate) = SYS_PB_CLOCK / (baudrate << 1) - 1` from the source,
in 32-bit unsigned arithmetic.  `SYS_PB_CLOCK` comes from `sys.h`, which is
not under src/; the spec quantifies over "peripheral clock C", so it is kept
as the parameter `pbclock`.  The subtraction of 1 is unsigned wrap-around:
for `q = pbclock / ((baudrate <<< 1) % UINT_MOD)` with `q < UINT_MOD` the
value is `(q + (UINT_MOD - 1)) % UINT_MOD`. -/
def SPI_BRG (pbclock baudrate : Nat) : Nat :=
  (pbclock / ((baudrate <<< 1) % UINT_MOD) + (UINT_MOD - 1)) % UINT_MOD

/-- `atomic_reg_clr(reg, mask)`: atomically clear the bits of `mask` in the
register value (`register.h`'s clear-register write). -/
def atomic_reg_clr (v mask : Nat) : Nat := Nat.ldiff v mask

/-- `atomic_reg_set(reg, mask)`: atomically set the bits of `mask` in the
register value. -/
def atomic_reg_set (v mask : Nat) : Nat := v ||| mask

/-- `enum spi_channel`: the two physical SPI hardware instances. -/
inductive spi_channel where
  | SPI_CHANNEL1
  | SPI_CHANNEL2
  deriving DecidableEq, Repr

/-- Modelled from the spec and `xc.h` (toolchain header, not under src/):
interrupt vector identifier of the SPI1 fault event.  The concrete value is
immaterial to every claim; the six vectors are modelled as distinct. -/
def SPI1_ERR_IRQ : Nat := 26

/-- SPI1 receive interrupt vector (see `SPI1_ERR_IRQ`). -/
def SPI1_RX_IRQ : Nat := 27

/-- SPI1 transmit interrupt vector (see `SPI1_ERR_IRQ`). -/
def SPI1_TX_IRQ : Nat := 28

/-- SPI2 fault interrupt vector (see `SPI1_ERR_IRQ`). -/
def SPI2_ERR_IRQ : Nat := 37

/-- SPI2 receive interrupt vector (see `SPI1_ERR_IRQ`). -/
def SPI2_RX_IRQ : Nat := 38

/-- SPI2 transmit interrupt vector (see `SPI1_ERR_IRQ`). -/
def SPI2_TX_IRQ : Nat := 39

/-- `struct spi_interrupt_map`: the per-channel interrupt flag/enable masks
and interrupt vector numbers.  The `ifs`/`iec` register pointers are
represented by the channel itself (each channel's state carries its own
`ifs`/`iec` register values). -/
structure spi_interrupt_map where
  fault_mask : Nat
  receive_mask : Nat
  transfer_mask : Nat
  fault_irq : Nat
  receive_irq : Nat
  transfer_irq : Nat
  deriving DecidableEq, Repr

/-- `spi_module_interrupts[]` from the source: the fixed per-channel
interrupt maps. -/
def spi_module_interrupts : spi_channel → spi_interrupt_map
  | spi_channel.SPI_CHANNEL1 =>
    { fault_mask := BIT 3
      receive_mask := BIT 4
      transfer_mask := BIT 5
      fault_irq := SPI1_ERR_IRQ
      receive_irq := SPI1_RX_IRQ
      transfer_irq := SPI1_TX_IRQ }
  | spi_channel.SPI_CHANNEL2 =>
    { fault_mask := BIT 21
      receive_mask := BIT 22
      transfer_mask := BIT 23
      fault_irq := SPI2_ERR_IRQ
      receive_irq := SPI2_RX_IRQ
      transfer_irq := SPI2_TX_IRQ }

/-- `struct spi_register_map` of one channel, together with the channel's
interrupt flag (`ifs`) and enable (`iec`) registers. -/
structure spi_register_map where
  spicon : Nat
  spistat : Nat
  spibuf : Nat
  spibrg : Nat
  spicon2 : Nat
  ifs : Nat
  iec : Nat
  deriving DecidableEq, Repr

/-- Mutable part of `struct spi_module`: the derived FIFO metrics and the
ownership flag (the register/interrupt map pointers are represented by the
channel identity). -/
structure spi_module where
  fifo_depth : Nat
  fifo_size : Nat
  assigned : Bool
  deriving DecidableEq, Repr

/-- `struct spi_config`: desired baud rate and raw control-word flags. -/
structure spi_config where
  baudrate : Nat
  spicon_flags : Nat
  deriving DecidableEq, Repr

/-- Complete state of one SPI channel: its registers and its descriptor. -/
structure ChannelState where
  regs : spi_register_map
  module : spi_module
  deriving DecidableEq, Repr

/-- Register-write events emitted by `spi_configure`, in program order. -/
inductive CfgEvent where
  | clrConOn
  | clrIec (mask : Nat)
  | clrIfs (mask : Nat)
  | writeBrg (v : Nat)
  | writeCon (v : Nat)
  deriving DecidableEq, Repr

/-- `spi_configure` from the source: disable the module first, clear the six
interrupt enable/flag bits, program the baud-rate generator and the control
word, and derive the FIFO metrics from the control flags (the source assigns
the 8-bit defaults and then overwrites them in an `if`/`else if`, which is
the `if`/`else if`/`else` chain below).  Returns the new channel state and
the trace of register writes in program order. -/
def spi_configure (pbclock : Nat) (ch : spi_channel) (st : ChannelState)
    (config : spi_config) : ChannelState × List CfgEvent :=
  let spi_int := spi_module_interrupts ch
  let r1 := { st.regs with spicon := atomic_reg_clr st.regs.spicon SPI_ON }
  let r2 := { r1 with iec := atomic_reg_clr r1.iec spi_int.fault_mask }
  let r3 := { r2 with iec := atomic_reg_clr r2.iec spi_int.receive_mask }
  let r4 := { r3 with iec := atomic_reg_clr r3.iec spi_int.transfer_mask }
  let r5 := { r4 with ifs := atomic_reg_clr r4.ifs spi_int.fault_mask }
  let r6 := { r5 with ifs := atomic_reg_clr r5.ifs spi_int.receive_mask }
  let r7 := { r6 with ifs := atomic_reg_clr r6.ifs spi_int.transfer_mask }
  let brgval := if config.baudrate > 0 then SPI_BRG pbclock config.baudrate else 0
  let r8 := { r7 with spibrg := brgval }
  let r9 := { r8 with spicon := config.spicon_flags }
  let fifo :=
    if config.spicon_flags &&& SPI_MODE32 ≠ 0 then
      (SPI_FIFO_DEPTH_MODE32, SPI_FIFO_SIZE_MODE32)
    else if config.spicon_flags &&& SPI_MODE16 ≠ 0 then
      (SPI_FIFO_DEPTH_MODE16, SPI_FIFO_SIZE_MODE16)
    else
      (SPI_FIFO_DEPTH_MODE8, SPI_FIFO_SIZE_MODE8)
  ({ regs := r9
     module := { st.module with fifo_depth := fifo.1, fifo_size := fifo.2 } },
   [CfgEvent.clrConOn,
    CfgEvent.clrIec spi_int.fault_mask,
    CfgEvent.clrIec spi_int.receive_mask,
    CfgEvent.clrIec spi_int.transfer_mask,
    CfgEvent.clrIfs spi_int.fault_mask,
    CfgEvent.clrIfs spi_int.receive_mask,
    CfgEvent.clrIfs spi_int.transfer_mask,
    CfgEvent.writeBrg brgval,
    CfgEvent.writeCon config.spicon_flags])

/-- State of the whole driver: the two statically allocated channel
descriptors (`spi_modules[]`) with their register blocks. -/
structure SysState where
  ch1 : ChannelState
  ch2 : ChannelState
  deriving DecidableEq, Repr

/-- `&spi_modules[channel]`: select a channel's state. -/
def getCh (st : SysState) : spi_channel → ChannelState
  | spi_channel.SPI_CHANNEL1 => st.ch1
  | spi_channel.SPI_CHANNEL2 => st.ch2

/-- Write back a channel's state. -/
def setCh (st : SysState) (ch : spi_channel) (c : ChannelState) : SysState :=
  match ch with
  | spi_channel.SPI_CHANNEL1 => { st with ch1 := c }
  | spi_channel.SPI_CHANNEL2 => { st with ch2 := c }

/-- `spi_construct` from the source: fail with `NULL` (here `none`) if the
selected channel descriptor is already assigned; otherwise mark it assigned,
configure it, and return a handle to it (the handle is the channel identity
of the owned descriptor). -/
def spi_construct (pbclock : Nat) (channel : spi_channel) (config : spi_config)
    (st : SysState) : Option spi_channel × SysState :=
  let c := getCh st channel
  if c.module.assigned then
    (none, st)
  else
    let assignedState := { c with module := { c.module with assigned := true } }
    let configured := (spi_configure pbclock channel assignedState config).1
    (some channel, setCh st channel configured)

/-- `spi_destruct` from the source: clear the hardware "on" control bit and
mark the descriptor unassigned. -/
def spi_destruct (channel : spi_channel) (st : SysState) : SysState :=
  let c := getCh st channel
  setCh st channel
    { c with
      regs := { c.regs with spicon := atomic_reg_clr c.regs.spicon SPI_ON }
      module := { c.module with assigned := false } }

/-- `spi_enable` from the source: set the hardware "on" control bit. -/
def spi_enable (st : ChannelState) : ChannelState :=
  { st with regs := { st.regs with spicon := atomic_reg_set st.regs.spicon SPI_ON } }

/-- `spi_disable` from the source: clear the hardware "on" control bit. -/
def spi_disable (st : ChannelState) : ChannelState :=
  { st with regs := { st.regs with spicon := atomic_reg_clr st.regs.spicon SPI_ON } }

/-- Register-access events emitted by the transmit loop, in program order:
`readStat v` is one read of the status register during the busy-wait (the
value observed), `writeBuf v` is one write of a transfer unit to the
data-buffer register. -/
inductive TxEvent where
  | readStat (v : Nat)
  | writeBuf (v : Nat)
  deriving DecidableEq, Repr

/-- The busy-wait `while(atomic_reg_value(spi_reg->spistat) & SPI_SPISTAT_SPITBF_MASK);`
from the source.  The successive hardware values of the status register are
supplied by the oracle list `readings`; the loop consumes readings while the
transmit-buffer-full bit is set and stops at the first reading with the bit
clear.  Returns the trace of reads and the unconsumed readings, or `none`
when the oracle is exhausted with the bit still set (the C loop would still
be spinning). -/
def waitTbf : List Nat → Option (List TxEvent × List Nat)
  | [] => none
  | r :: rs =>
    if r &&& SPI_SPISTAT_SPITBF_MASK ≠ 0 then
      match waitTbf rs with
      | none => none
      | some (tr, rest) => some (TxEvent.readStat r :: tr, rest)
    else
      some ([TxEvent.readStat r], rs)

/-- The `while(size--)` body shared by `spi_transmit_mode8` and
`spi_transmit_mode32` (their loop bodies are textually identical in the
source): for each transfer unit, busy-wait for the transmit-buffer-full bit
to clear, then write the unit to the data-buffer register.  Returns the
emitted trace, or `none` when a busy-wait never observes the bit clear. -/
def spi_transmit_units : List Nat → List Nat → Option (List TxEvent)
  | _, [] => some []
  | readings, b :: bs =>
    match waitTbf readings with
    | none => none
    | some (tr, rest) =>
      match spi_transmit_units rest bs with
      | none => none
      | some tr2 => some (tr ++ TxEvent.writeBuf b :: tr2)

/-- `spi_transmit_mode32` from the source.  `spicon` is the current value of
the control register, `readings` the oracle of status-register values
observed by the busy-waits, `buffer` the transfer units (32-bit words) and
`size` the unit count.  Returns the C return value together with the trace
of register accesses; `none` models the C loop spinning forever. -/
def spi_transmit_mode32 (spicon : Nat) (readings : List Nat)
    (buffer : List Nat) (size : Nat) : Option (Bool × List TxEvent) :=
  if size ≠ 0 ∧ spicon &&& SPI_MSTEN ≠ 0 then
    match spi_transmit_units readings (buffer.take size) with
    | none => none
    | some tr => some (true, tr)
  else
    some (false, [])

/-- `spi_transmit_mode8` from the source: identical control flow to
`spi_transmit_mode32`, with byte transfer units. -/
def spi_transmit_mode8 (spicon : Nat) (readings : List Nat)
    (buffer : List Nat) (size : Nat) : Option (Bool × List TxEvent) :=
  if size ≠ 0 ∧ spicon &&& SPI_MSTEN ≠ 0 then
    match spi_transmit_units readings (buffer.take size) with
    | none => none
    | some tr => some (true, tr)
  else
    some (false, [])

/-- The values written to the data-buffer register in a transmit trace. -/
def txWrites (tr : List TxEvent) : List Nat :=
  tr.filterMap fun e =>
    match e with
    | TxEvent.writeBuf v => some v
    | TxEvent.readStat _ => none

/-- Helper of `writesPrecededByClearWait`: `prev` is the status value
observed by the most recent read, provided no write intervened since. -/
def wpcAux (prev : Option Nat) : List TxEvent → Bool
  | [] => true
  | TxEvent.readStat r :: rest => wpcAux (some r) rest
  | TxEvent.writeBuf _ :: rest =>
    match prev with
    | some r => (r &&& SPI_SPISTAT_SPITBF_MASK == 0) && wpcAux none rest
    | none => false

/-- Every write to the data-buffer register in the trace is immediately
preceded by a status-register read that observed the transmit-buffer-full
bit clear (the exit condition of the busy-wait). -/
def writesPrecededByClearWait (tr : List TxEvent) : Bool :=
  wpcAux none tr

/-- Modelled from the spec: `struct dma_event` of the DMA subsystem
(`dma.h` is not under src/) — "an enable flag plus an interrupt vector
number designating which event triggers a DMA transfer start or abort". -/
structure dma_event where
  enable : Bool
  irq_vector : Nat
  deriving DecidableEq, Repr

/-- Memory-mapped locations this driver points the DMA engine at: the
data-buffer register of an SPI channel. -/
inductive mmio_addr where
  | spibuf_reg (ch : spi_channel)
  deriving DecidableEq, Repr

/-- Modelled from the spec: `struct dma_channel` of the external DMA
subsystem, holding the configuration this driver populates — source and
destination (address and unit count), cell size in bytes, and the start and
abort event descriptors. -/
structure dma_channel where
  src : Option (mmio_addr × Nat)
  dst : Option (mmio_addr × Nat)
  cell_size : Nat
  start_event : dma_event
  abort_event : dma_event
  deriving DecidableEq, Repr

/-- Modelled from the spec: `dma_configure_src(channel, address, unit_count)`
records the DMA read source. -/
def dma_configure_src (c : dma_channel) (addr : mmio_addr) (count : Nat) :
    dma_channel :=
  { c with src := some (addr, count) }

/-- Modelled from the spec: `dma_configure_dst(channel, address, unit_count)`
records the DMA write destination. -/
def dma_configure_dst (c : dma_channel) (addr : mmio_addr) (count : Nat) :
    dma_channel :=
  { c with dst := some (addr, count) }

/-- Modelled from the spec: `dma_configure_cell(channel, bytes)` records the
cell size. -/
def dma_configure_cell (c : dma_channel) (size : Nat) : dma_channel :=
  { c with cell_size := size }

/-- Modelled from the spec: `dma_configure_start_event(channel, event)`
records the transfer-start event. -/
def dma_configure_start_event (c : dma_channel) (e : dma_event) : dma_channel :=
  { c with start_event := e }

/-- Modelled from the spec: `dma_configure_abort_event(channel, event)`
records the transfer-abort event. -/
def dma_configure_abort_event (c : dma_channel) (e : dma_event) : dma_channel :=
  { c with abort_event := e }

/-- `spi_configure_dma_src` from the source: program the externally owned
DMA channel to read from this SPI channel's data-buffer register (unit
count 1), one `fifo_size` cell per transfer, started by the receive
interrupt vector and aborted by the fault interrupt vector. -/
def spi_configure_dma_src (ch : spi_channel) (m : spi_module)
    (channel : dma_channel) : dma_channel :=
  let start_event : dma_event :=
    { enable := true, irq_vector := (spi_module_interrupts ch).receive_irq }
  let abort_event : dma_event :=
    { enable := true, irq_vector := (spi_module_interrupts ch).fault_irq }
  let c1 := dma_configure_src channel (mmio_addr.spibuf_reg ch) 1
  let c2 := dma_configure_cell c1 m.fifo_size
  let c3 := dma_configure_start_event c2 start_event
  dma_configure_abort_event c3 abort_event

/-- `spi_configure_dma_dst` from the source: symmetric to
`spi_configure_dma_src` — program the DMA channel to write into the
data-buffer register, started by the transmit interrupt vector, aborted by
the fault vector. -/
def spi_configure_dma_dst (ch : spi_channel) (m : spi_module)
    (channel : dma_channel) : dma_channel :=
  let start_event : dma_event :=
    { enable := true, irq_vector := (spi_module_interrupts ch).transfer_irq }
  let abort_event : dma_event :=
    { enable := true, irq_vector := (spi_module_interrupts ch).fault_irq }
  let c1 := dma_configure_dst channel (mmio_addr.spibuf_reg ch) 1
  let c2 := dma_configure_cell c1 m.fifo_size
  let c3 := dma_configure_start_event c2 start_event
  dma_configure_abort_event c3 abort_event

/-- Reset-value register fixture used by the concrete witnesses. -/
def regs0 : spi_register_map :=
  { spicon := 0, spistat := 0, spibuf := 0, spibrg := 0, spicon2 := 0
    ifs := 0, iec := 0 }

/-- Initial descriptor of `spi_modules[]` from the source: 8-bit FIFO
metrics, unassigned. -/
def initModule : spi_module :=
  { fifo_depth := SPI_FIFO_DEPTH_MODE8, fifo_size := SPI_FIFO_SIZE_MODE8
    assigned := false }

/-- Initial per-channel state fixture. -/
def initChannel : ChannelState :=
  { regs := regs0, module := initModule }

/-- Initial driver state fixture (both channels unassigned). -/
def initSys : SysState :=
  { ch1 := initChannel, ch2 := initChannel }

lemma ldiff_land_self (a m : Nat) : Nat.ldiff a m &&& m = 0 := by
  apply Nat.eq_of_testBit_eq
  intro i
  simp [Nat.testBit_land, Nat.testBit_ldiff]

lemma ldiff_idem (a m : Nat) : Nat.ldiff (Nat.ldiff a m) m = Nat.ldiff a m := by
  apply Nat.eq_of_testBit_eq
  intro i
  simp [Nat.testBit_ldiff]

lemma ldiff_lor_self (a m : Nat) : Nat.ldiff (a ||| m) m = Nat.ldiff a m := by
  apply Nat.eq_of_testBit_eq
  intro i
  simp only [Nat.testBit_ldiff, Nat.testBit_lor]
  generalize Nat.testBit a i = x
  generalize Nat.testBit m i = y
  revert x y
  decide

lemma ldiff3_land_fst (a m1 m2 m3 : Nat) :
    Nat.ldiff (Nat.ldiff (Nat.ldiff a m1) m2) m3 &&& m1 = 0 := by
  apply Nat.eq_of_testBit_eq
  intro i
  simp only [Nat.testBit_land, Nat.testBit_ldiff, Nat.zero_testBit]
  generalize Nat.testBit a i = x
  generalize Nat.testBit m1 i = y
  generalize Nat.testBit m2 i = z
  generalize Nat.testBit m3 i = w
  revert x y z w
  decide

lemma ldiff3_land_snd (a m1 m2 m3 : Nat) :
    Nat.ldiff (Nat.ldiff (Nat.ldiff a m1) m2) m3 &&& m2 = 0 := by
  apply Nat.eq_of_testBit_eq
  intro i
  simp only [Nat.testBit_land, Nat.testBit_ldiff, Nat.zero_testBit]
  generalize Nat.testBit a i = x
  generalize Nat.testBit m1 i = y
  generalize Nat.testBit m2 i = z
  generalize Nat.testBit m3 i = w
  revert x y z w
  decide

lemma ldiff3_land_thd (a m1 m2 m3 : Nat) :
    Nat.ldiff (Nat.ldiff (Nat.ldiff a m1) m2) m3 &&& m3 = 0 :=
  ldiff_land_self _ _

lemma getCh_setCh (st : SysState) (ch : spi_channel) (c : ChannelState) :
    getCh (setCh st ch c) ch = c := by
  cases ch <;> rfl

lemma spi_configure_preserves_assigned (pbclock : Nat) (ch : spi_channel)
    (st : ChannelState) (config : spi_config) :
    (spi_configure pbclock ch st config).1.module.assigned = st.module.assigned := rfl

/-- C3: for baud rate `B > 0` and peripheral clock `C` (within 32-bit range
and with `C / (2B) ≥ 1`, so that the unsigned arithmetic of the `SPI_BRG`
macro neither overflows nor wraps), `spi_configure` programs the baud-rate
generator with `C / (2B) - 1`; for `B = 0` it programs `0`. -/
theorem spi_configure_brg_divisor (pbclock : Nat) (ch : spi_channel)
    (st : ChannelState) (config : spi_config) :
    (config.baudrate = 0 →
      (spi_configure pbclock ch st config).1.regs.spibrg = 0) ∧
    (0 < config.baudrate → 2 * config.baudrate < UINT_MOD → pbclock < UINT_MOD →
      1 ≤ pbclock / (2 * config.baudrate) →
      (spi_configure pbclock ch st config).1.regs.spibrg =
        pbclock / (2 * config.baudrate) - 1) := by
  constructor
  · intro h0
    simp [spi_configure, h0]
  · intro hpos hb hc hq
    have hif : (spi_configure pbclock ch st config).1.regs.spibrg =
        SPI_BRG pbclock config.baudrate := by
      simp [spi_configure, hpos]
    rw [hif]
    unfold SPI_BRG
    have hshift : config.baudrate <<< 1 = 2 * config.baudrate := by
      rw [Nat.shiftLeft_eq]
      ring
    rw [hshift, Nat.mod_eq_of_lt hb]
    have hqlt : pbclock / (2 * config.baudrate) < UINT_MOD :=
      lt_of_le_of_lt (Nat.div_le_self _ _) hc
    have hsplit : pbclock / (2 * config.baudrate) + (UINT_MOD - 1) =
        (pbclock / (2 * config.baudrate) - 1) + UINT_MOD := by
      have : 0 < UINT_MOD := by norm_num [UINT_MOD]
      omega
    rw [hsplit, Nat.add_mod_right]
    exact Nat.mod_eq_of_lt (by omega)

/-- Witness for C3: with peripheral clock 40 MHz and baud rate 1 MHz the
programmed divisor is `40000000 / 2000000 - 1 = 19`, and baud rate 0
programs 0. -/
theorem spi_configure_brg_divisor_w :
    (spi_configure 40000000 spi_channel.SPI_CHANNEL1 initChannel
      { baudrate := 1000000, spicon_flags := 0 }).1.regs.spibrg = 19 ∧
    (spi_configure 40000000 spi_channel.SPI_CHANNEL1 initChannel
      { baudrate := 0, spicon_flags := 0 }).1.regs.spibrg = 0 := by
  constructor
  · have h := (spi_configure_brg_divisor 40000000 spi_channel.SPI_CHANNEL1
      initChannel { baudrate := 1000000, spicon_flags := 0 }).2
      (by decide) (by decide) (by decide) (by decide)
    simpa using h
  · exact (spi_configure_brg_divisor 40000000 spi_channel.SPI_CHANNEL1
      initChannel { baudrate := 0, spicon_flags := 0 }).1 rfl

/-- C4: after `spi_configure` the FIFO metrics are derived from the control
word — 32-bit mode flag set: `fifo_size = 4`, `fifo_depth = 4`; 16-bit mode
flag set (32-bit clear, per the source's precedence): `fifo_size = 2`,
`fifo_depth = 8`; neither flag: `fifo_size = 1`, `fifo_depth = 16`. -/
theorem spi_configure_fifo_metrics (pbclock : Nat) (ch : spi_channel)
    (st : ChannelState) (config : spi_config) :
    (config.spicon_flags &&& SPI_MODE32 ≠ 0 →
      (spi_configure pbclock ch st config).1.module.fifo_size = 4 ∧
      (spi_configure pbclock ch st config).1.module.fifo_depth = 4) ∧
    (config.spicon_flags &&& SPI_MODE32 = 0 →
      config.spicon_flags &&& SPI_MODE16 ≠ 0 →
      (spi_configure pbclock ch st config).1.module.fifo_size = 2 ∧
      (spi_configure pbclock ch st config).1.module.fifo_depth = 8) ∧
    (config.spicon_flags &&& SPI_MODE32 = 0 →
      config.spicon_flags &&& SPI_MODE16 = 0 →
      (spi_configure pbclock ch st config).1.module.fifo_size = 1 ∧
      (spi_configure pbclock ch st config).1.module.fifo_depth = 16) := by
  refine ⟨fun h32 => ?_, fun h32 h16 => ?_, fun h32 h16 => ?_⟩ <;>
    simp [spi_configure, h32, SPI_FIFO_SIZE_MODE32, SPI_FIFO_DEPTH_MODE32,
      SPI_FIFO_SIZE_MODE16, SPI_FIFO_DEPTH_MODE16,
      SPI_FIFO_SIZE_MODE8, SPI_FIFO_DEPTH_MODE8] <;>
    simp [h16]

/-- Witness for C4: the three FIFO-metric cases at concrete control words. -/
theorem spi_configure_fifo_metrics_w :
    ((spi_configure 0 spi_channel.SPI_CHANNEL1 initChannel
        { baudrate := 0, spicon_flags := SPI_MODE32 }).1.module.fifo_size = 4 ∧
      (spi_configure 0 spi_channel.SPI_CHANNEL1 initChannel
        { baudrate := 0, spicon_flags := SPI_MODE32 }).1.module.fifo_depth = 4) ∧
    ((spi_configure 0 spi_channel.SPI_CHANNEL1 initChannel
        { baudrate := 0, spicon_flags := SPI_MODE16 }).1.module.fifo_size = 2 ∧
      (spi_configure 0 spi_channel.SPI_CHANNEL1 initChannel
        { baudrate := 0, spicon_flags := SPI_MODE16 }).1.module.fifo_depth = 8) ∧
    ((spi_configure 0 spi_channel.SPI_CHANNEL1 initChannel
        { baudrate := 0, spicon_flags := 0 }).1.module.fifo_size = 1 ∧
      (spi_configure 0 spi_channel.SPI_CHANNEL1 initChannel
        { baudrate := 0, spicon_flags := 0 }).1.module.fifo_depth = 16) :=
  ⟨(spi_configure_fifo_metrics 0 spi_channel.SPI_CHANNEL1 initChannel
      { baudrate := 0, spicon_flags := SPI_MODE32 }).1 (by decide),
   (spi_configure_fifo_metrics 0 spi_channel.SPI_CHANNEL1 initChannel
      { baudrate := 0, spicon_flags := SPI_MODE16 }).2.1 (by decide) (by decide),
   (spi_configure_fifo_metrics 0 spi_channel.SPI_CHANNEL1 initChannel
      { baudrate := 0, spicon_flags := 0 }).2.2 (by decide) (by decide)⟩

/-- C10: when both the 32-bit and the 16-bit mode flags are set in the
control word, `spi_configure` gives 32-bit mode precedence: the descriptor
ends with `fifo_size = 4` and `fifo_depth = 4`. -/
theorem spi_configure_mode32_precedence (pbclock : Nat) (ch : spi_channel)
    (st : ChannelState) (config : spi_config)
    (h32 : config.spicon_flags &&& SPI_MODE32 ≠ 0)
    (h16 : config.spicon_flags &&& SPI_MODE16 ≠ 0) :
    (spi_configure pbclock ch st config).1.module.fifo_size = 4 ∧
    (spi_configure pbclock ch st config).1.module.fifo_depth = 4 := by
  simp [spi_configure, h32, SPI_FIFO_SIZE_MODE32, SPI_FIFO_DEPTH_MODE32]

/-- Witness for C10: a control word with both width flags set yields the
32-bit FIFO metrics. -/
theorem spi_configure_mode32_precedence_w :
    (spi_configure 0 spi_channel.SPI_CHANNEL1 initChannel
      { baudrate := 0, spicon_flags := SPI_MODE32 ||| SPI_MODE16 }).1.module.fifo_size = 4 ∧
    (spi_configure 0 spi_channel.SPI_CHANNEL1 initChannel
      { baudrate := 0, spicon_flags := SPI_MODE32 ||| SPI_MODE16 }).1.module.fifo_depth = 4 :=
  spi_configure_mode32_precedence 0 spi_channel.SPI_CHANNEL1 initChannel
    { baudrate := 0, spicon_flags := SPI_MODE32 ||| SPI_MODE16 }
    (by decide) (by decide)

/-- C6: for every prior register state, `spi_configure` clears all six
interrupt bits of the channel's interrupt map — the fault, receive and
transmit enable bits and the fault, receive and transmit flag bits — so
interrupts are left disabled after every configuration. -/
theorem spi_configure_clears_interrupts (pbclock : Nat) (ch : spi_channel)
    (st : ChannelState) (config : spi_config) :
    (spi_configure pbclock ch st config).1.regs.iec &&&
      (spi_module_interrupts ch).fault_mask = 0 ∧
    (spi_configure pbclock ch st config).1.regs.iec &&&
      (spi_module_interrupts ch).receive_mask = 0 ∧
    (spi_configure pbclock ch st config).1.regs.iec &&&
      (spi_module_interrupts ch).transfer_mask = 0 ∧
    (spi_configure pbclock ch st config).1.regs.ifs &&&
      (spi_module_interrupts ch).fault_mask = 0 ∧
    (spi_configure pbclock ch st config).1.regs.ifs &&&
      (spi_module_interrupts ch).receive_mask = 0 ∧
    (spi_configure pbclock ch st config).1.regs.ifs &&&
      (spi_module_interrupts ch).transfer_mask = 0 := by
  refine ⟨?_, ?_, ?_, ?_, ?_, ?_⟩ <;>
    simp [spi_configure, atomic_reg_clr, ldiff3_land_fst, ldiff3_land_snd,
      ldiff3_land_thd]

/-- C7: in every execution of `spi_configure`, the register write that
clears the hardware "on" control bit is the first emitted register access,
and no other access in the trace is that write: the disable-before-
reconfigure ordering is preserved. -/
theorem spi_configure_disable_first (pbclock : Nat) (ch : spi_channel)
    (st : ChannelState) (config : spi_config) :
    ((spi_configure pbclock ch st config).2).head? = some CfgEvent.clrConOn ∧
    CfgEvent.clrConOn ∉ ((spi_configure pbclock ch st config).2).tail := by
  constructor
  · simp [spi_configure]
  · simp [spi_configure]

/-- C8: `spi_configure_dma_src` programs the DMA channel with start event =
receive interrupt vector and abort event = fault interrupt vector (both
enabled), cell size = the descriptor's current `fifo_size`, and source = the
channel's data-buffer register with unit count 1; `spi_configure_dma_dst`
symmetrically uses the transmit vector as start event and writes the
destination instead. -/
theorem spi_configure_dma_events (ch : spi_channel) (m : spi_module)
    (c : dma_channel) :
    (spi_configure_dma_src ch m c).start_event =
      { enable := true, irq_vector := (spi_module_interrupts ch).receive_irq } ∧
    (spi_configure_dma_src ch m c).abort_event =
      { enable := true, irq_vector := (spi_module_interrupts ch).fault_irq } ∧
    (spi_configure_dma_src ch m c).cell_size = m.fifo_size ∧
    (spi_configure_dma_src ch m c).src = some (mmio_addr.spibuf_reg ch, 1) ∧
    (spi_configure_dma_dst ch m c).start_event =
      { enable := true, irq_vector := (spi_module_interrupts ch).transfer_irq } ∧
    (spi_configure_dma_dst ch m c).abort_event =
      { enable := true, irq_vector := (spi_module_interrupts ch).fault_irq } ∧
    (spi_configure_dma_dst ch m c).cell_size = m.fifo_size ∧
    (spi_configure_dma_dst ch m c).dst = some (mmio_addr.spibuf_reg ch, 1) := by
  refine ⟨rfl, rfl, rfl, rfl, rfl, rfl, rfl, rfl⟩

/-- C9: `spi_disable` and `spi_destruct` clear the hardware "on" control bit
idempotently — the result has the bit clear, applying the operation twice
equals applying it once, and disabling after enabling equals disabling
directly (the outcome does not depend on whether the bit was set). -/
theorem spi_disable_destruct_idempotent (st : ChannelState) (sys : SysState)
    (ch : spi_channel) :
    spi_disable (spi_disable st) = spi_disable st ∧
    (spi_disable st).regs.spicon &&& SPI_ON = 0 ∧
    spi_disable (spi_enable st) = spi_disable st ∧
    spi_destruct ch (spi_destruct ch sys) = spi_destruct ch sys ∧
    (getCh (spi_destruct ch sys) ch).regs.spicon &&& SPI_ON = 0 := by
  refine ⟨?_, ?_, ?_, ?_, ?_⟩
  · simp [spi_disable, atomic_reg_clr, ldiff_idem]
  · simp [spi_disable, atomic_reg_clr, ldiff_land_self]
  · simp [spi_disable, spi_enable, atomic_reg_clr, atomic_reg_set, ldiff_lor_self]
  · cases ch <;>
      simp [spi_destruct, getCh, setCh, atomic_reg_clr, ldiff_idem]
  · cases ch <;>
      simp [spi_destruct, getCh, setCh, atomic_reg_clr, ldiff_land_self]

lemma spi_construct_free (pbclock : Nat) (ch : spi_channel) (cfg : spi_config)
    (st : SysState) (h : (getCh st ch).module.assigned = false) :
    (spi_construct pbclock ch cfg st).1 = some ch ∧
    (getCh (spi_construct pbclock ch cfg st).2 ch).module.assigned = true := by
  constructor
  · simp [spi_construct, h]
  · have hsnd : (spi_construct pbclock ch cfg st).2 =
        setCh st ch ((spi_configure pbclock ch
          { getCh st ch with
            module := { (getCh st ch).module with assigned := true } } cfg).1) := by
      simp [spi_construct, h]
    rw [hsnd, getCh_setCh, spi_configure_preserves_assigned]

lemma spi_construct_busy (pbclock : Nat) (ch : spi_channel) (cfg : spi_config)
    (st : SysState) (h : (getCh st ch).module.assigned = true) :
    spi_construct pbclock ch cfg st = (none, st) := by
  simp [spi_construct, h]

lemma spi_destruct_unassigns (ch : spi_channel) (st : SysState) :
    (getCh (spi_destruct ch st) ch).module.assigned = false := by
  cases ch <;> simp [spi_destruct, getCh, setCh]

/-- C1: acquiring an already-assigned channel fails with no handle and
leaves the state unchanged; acquiring an unassigned channel succeeds,
returns a handle to the descriptor and marks it assigned, a second
acquisition without an intervening release fails, and after `spi_destruct`
marks the descriptor unassigned a subsequent acquisition succeeds again. -/
theorem spi_construct_lifecycle (pbclock : Nat) (ch : spi_channel)
    (cfg cfg2 : spi_config) (st : SysState) :
    ((getCh st ch).module.assigned = true →
      spi_construct pbclock ch cfg st = (none, st)) ∧
    ((getCh st ch).module.assigned = false →
      ∃ st1, spi_construct pbclock ch cfg st = (some ch, st1) ∧
        (getCh st1 ch).module.assigned = true ∧
        spi_construct pbclock ch cfg2 st1 = (none, st1) ∧
        (getCh (spi_destruct ch st1) ch).module.assigned = false ∧
        ∃ st2, spi_construct pbclock ch cfg2 (spi_destruct ch st1) = (some ch, st2) ∧
          (getCh st2 ch).module.assigned = true) := by
  constructor
  · intro h
    exact spi_construct_busy pbclock ch cfg st h
  · intro h
    obtain ⟨h1, h2⟩ := spi_construct_free pbclock ch cfg st h
    refine ⟨(spi_construct pbclock ch cfg st).2, ?_, h2, ?_, ?_, ?_⟩
    · rw [← h1]
    · exact spi_construct_busy pbclock ch cfg2 _ h2
    · exact spi_destruct_unassigns ch _
    · obtain ⟨h4, h5⟩ := spi_construct_free pbclock ch cfg2
        (spi_destruct ch (spi_construct pbclock ch cfg st).2)
        (spi_destruct_unassigns ch _)
      refine ⟨(spi_construct pbclock ch cfg2
        (spi_destruct ch (spi_construct pbclock ch cfg st).2)).2, ?_, h5⟩
      rw [← h4]

/-- Witness for C1: on the initial state (both descriptors unassigned)
acquiring channel 1 succeeds with a handle, and a second acquisition of the
returned state fails with no handle. -/
theorem spi_construct_lifecycle_w :
    (spi_construct 0 spi_channel.SPI_CHANNEL1
      { baudrate := 0, spicon_flags := 0 } initSys).1 =
        some spi_channel.SPI_CHANNEL1 ∧
    (spi_construct 0 spi_channel.SPI_CHANNEL1
      { baudrate := 0, spicon_flags := 0 }
      (spi_construct 0 spi_channel.SPI_CHANNEL1
        { baudrate := 0, spicon_flags := 0 } initSys).2).1 = none := by
  obtain ⟨st1, h1, -, h3, -, -⟩ :=
    (spi_construct_lifecycle 0 spi_channel.SPI_CHANNEL1
      { baudrate := 0, spicon_flags := 0 }
      { baudrate := 0, spicon_flags := 0 } initSys).2 (by decide)
  constructor
  · rw [h1]
  · rw [h1]
    simpa using congrArg Prod.fst h3

lemma waitTbf_shape : ∀ (readings : List Nat) (tr : List TxEvent) (rest : List Nat),
    waitTbf readings = some (tr, rest) →
    ∃ (pre : List Nat) (r : Nat),
      tr = pre.map TxEvent.readStat ++ [TxEvent.readStat r] ∧
      r &&& SPI_SPISTAT_SPITBF_MASK = 0 := by
  intro readings
  induction readings with
  | nil =>
    intro tr rest h
    simp [waitTbf] at h
  | cons r rs ih =>
    intro tr rest h
    by_cases hb : r &&& SPI_SPISTAT_SPITBF_MASK ≠ 0
    · simp only [waitTbf, if_pos hb] at h
      cases hw : waitTbf rs with
      | none =>
        simp only [hw] at h
        exact Option.noConfusion h
      | some p =>
        obtain ⟨tr1, rest1⟩ := p
        rw [hw] at h
        simp only [Option.some.injEq, Prod.mk.injEq] at h
        obtain ⟨htr, -⟩ := h
        obtain ⟨pre, rc, hshape, hclear⟩ := ih tr1 rest1 hw
        exact ⟨r :: pre, rc, by simp [← htr, hshape], hclear⟩
    · simp only [waitTbf, if_neg hb] at h
      simp only [Option.some.injEq, Prod.mk.injEq] at h
      obtain ⟨htr, -⟩ := h
      exact ⟨[], r, by simp [← htr], by omega⟩

lemma wpcAux_reads (r b : Nat) (tr2 : List TxEvent) : ∀ (pre : List Nat) (p : Option Nat),
    wpcAux p (pre.map TxEvent.readStat ++
        TxEvent.readStat r :: TxEvent.writeBuf b :: tr2) =
      ((r &&& SPI_SPISTAT_SPITBF_MASK == 0) && wpcAux none tr2) := by
  intro pre
  induction pre with
  | nil => intro p; simp [wpcAux]
  | cons x xs ih => intro p; simpa [wpcAux] using ih (some x)

lemma txWrites_append (a b : List TxEvent) :
    txWrites (a ++ b) = txWrites a ++ txWrites b := by
  simp [txWrites]

lemma txWrites_reads (pre : List Nat) :
    txWrites (pre.map TxEvent.readStat) = [] := by
  induction pre with
  | nil => rfl
  | cons x xs ih => simpa [txWrites] using ih

lemma spi_transmit_units_spec : ∀ (bs readings : List Nat) (tr : List TxEvent),
    spi_transmit_units readings bs = some tr →
    txWrites tr = bs ∧ writesPrecededByClearWait tr = true := by
  intro bs
  induction bs with
  | nil =>
    intro readings tr h
    simp only [spi_transmit_units, Option.some.injEq] at h
    subst h
    exact ⟨rfl, rfl⟩
  | cons b bs ih =>
    intro readings tr h
    simp only [spi_transmit_units] at h
    cases hw : waitTbf readings with
    | none =>
      simp only [hw] at h
      exact Option.noConfusion h
    | some p =>
      obtain ⟨wtr, rest⟩ := p
      cases hu : spi_transmit_units rest bs with
      | none =>
        simp only [hw, hu] at h
        exact Option.noConfusion h
      | some tr2 =>
        simp only [hw, hu, Option.some.injEq] at h
        obtain ⟨pre, rc, hshape, hclear⟩ := waitTbf_shape readings wtr rest hw
        obtain ⟨ihw, ihp⟩ := ih rest tr2 hu
        subst h
        constructor
        · rw [hshape, List.append_assoc]
          rw [txWrites_append, txWrites_reads]
          simpa [txWrites] using ihw
        · rw [writesPrecededByClearWait] at ihp ⊢
          rw [hshape, List.append_assoc]
          have hlist : ([TxEvent.readStat rc] ++ TxEvent.writeBuf b :: tr2) =
              TxEvent.readStat rc :: TxEvent.writeBuf b :: tr2 := by simp
          rw [hlist, wpcAux_reads rc b tr2 pre none, ihp, hclear]
          simp

/-- C2: with a nonzero unit count, the master-mode flag set in the control
register and the hardware enabled (the asserted precondition), both transmit
functions return true having emitted a trace whose data-buffer writes are
exactly the `size` buffer units in order — so exactly `size` writes — and in
which every data-buffer write is immediately preceded by a status read that
observed the transmit-buffer-full flag clear (the exit of the busy-wait).
The hypothesis on `spi_transmit_units` states that every busy-wait
eventually observes the flag clear under the given status-register
oracle. -/
theorem spi_transmit_master_writes (spicon : Nat) (readings buffer : List Nat)
    (size : Nat) (tr : List TxEvent)
    (hon : spicon &&& SPI_ON ≠ 0)
    (hsize : size ≠ 0)
    (hmst : spicon &&& SPI_MSTEN ≠ 0)
    (hlen : size ≤ buffer.length)
    (hunits : spi_transmit_units readings (buffer.take size) = some tr) :
    spi_transmit_mode32 spicon readings buffer size = some (true, tr) ∧
    spi_transmit_mode8 spicon readings buffer size = some (true, tr) ∧
    txWrites tr = buffer.take size ∧
    (txWrites tr).length = size ∧
    writesPrecededByClearWait tr = true := by
  obtain ⟨hw, hp⟩ := spi_transmit_units_spec (buffer.take size) readings tr hunits
  refine ⟨?_, ?_, hw, ?_, hp⟩
  · simp [spi_transmit_mode32, hsize, hmst, hunits]
  · simp [spi_transmit_mode8, hsize, hmst, hunits]
  · rw [hw, List.length_take]
    exact Nat.min_eq_left hlen

/-- Witness for C2: a concrete master-mode transmit of two units, where the
first busy-wait sees the flag set once before observing it clear. -/
theorem spi_transmit_master_writes_w :
    spi_transmit_mode32 (SPI_ON ||| SPI_MSTEN) [2, 0, 0] [10, 20] 2 =
      some (true, [TxEvent.readStat 2, TxEvent.readStat 0, TxEvent.writeBuf 10,
        TxEvent.readStat 0, TxEvent.writeBuf 20]) ∧
    spi_transmit_mode8 (SPI_ON ||| SPI_MSTEN) [2, 0, 0] [10, 20] 2 =
      some (true, [TxEvent.readStat 2, TxEvent.readStat 0, TxEvent.writeBuf 10,
        TxEvent.readStat 0, TxEvent.writeBuf 20]) := by
  have h := spi_transmit_master_writes (SPI_ON ||| SPI_MSTEN) [2, 0, 0] [10, 20] 2
    [TxEvent.readStat 2, TxEvent.readStat 0, TxEvent.writeBuf 10,
      TxEvent.readStat 0, TxEvent.writeBuf 20]
    (by decide) (by decide) (by decide) (by decide) (by decide)
  exact ⟨h.1, h.2.1⟩

/-- C5: both transmit functions called with unit count 0, or with the
master-mode flag clear in the control register, return false with an empty
register-access trace — in particular no write to the data-buffer
register. -/
theorem spi_transmit_rejects (spicon : Nat) (readings buffer : List Nat)
    (size : Nat) (h : size = 0 ∨ spicon &&& SPI_MSTEN = 0) :
    spi_transmit_mode32 spicon readings buffer size = some (false, []) ∧
    spi_transmit_mode8 spicon readings buffer size = some (false, []) := by
  rcases h with h | h <;>
    simp [spi_transmit_mode32, spi_transmit_mode8, h]

/-- Witness for C5: zero count returns false with no register accesses, and
so does a non-master control register with nonzero count. -/
theorem spi_transmit_rejects_w :
    spi_transmit_mode32 (SPI_ON ||| SPI_MSTEN) [0] [10] 0 = some (false, []) ∧
    spi_transmit_mode8 SPI_ON [0] [10] 1 = some (false, []) :=
  ⟨(spi_transmit_rejects (SPI_ON ||| SPI_MSTEN) [0] [10] 0 (Or.inl rfl)).1,
   (spi_transmit_rejects SPI_ON [0] [10] 1 (Or.inr (by decide))).2⟩
